import Mathlib

/-!
Verification of the alx-polly vote-integrity core.

The definitions below are a shallow embedding of the TypeScript source:

* `src/lib/vote-signature.ts`   — signature generation / verification
* `src/lib/rate-limiter.ts`     — fixed-window rate limiting
* `src/lib/error-handling.ts`   — friendly error mapping and text sanitization
* `src/app/lib/actions/poll-actions.ts` — server actions
    (createPoll, updatePoll, deletePoll, submitVote, getPollById)
* `src/migrations/add_vote_signature_constraint.sql` — the unique index on
    (poll_id, signature) that the store enforces on vote insertion

Machine numbers (Date.now(), counters) are modelled as `Nat`; option
indices, which the actions compare against 0, as `Int`.  JavaScript
truthiness on strings (`if (!s)`) is modelled as `s = ""` / `Option.none`.
The external managed store (Supabase/PostgREST) is modelled by explicit
row lists; `.single()` by `selectSingle`, which succeeds exactly on a
one-row result, and vote insertion honours the migration's unique partial
index on (poll_id, signature).
-/

namespace Polly

/-- A row of the `polls` table as consumed by the actions:
`polls(id, question, options[], user_id, ...)`. -/
structure Poll where
  id : String
  user_id : String
  question : String
  options : List String
  deriving Repr, DecidableEq

/-- A row of the `votes` table:
`votes(id, poll_id, user_id?, option_index, signature, ...)`.
`user_id` is nullable (anonymous votes). -/
structure Vote where
  poll_id : String
  user_id : Option String
  option_index : Int
  signature : String
  deriving Repr, DecidableEq

/-- The uniform `{ok, error?}` envelope returned by every server action. -/
structure ActionResult where
  ok : Bool
  error : Option String
  deriving Repr, DecidableEq

/-- PostgREST `.single()`: succeeds exactly when the filtered result has
one row (zero rows and multiple rows are both errors). -/
def selectSingle {α : Type} (rows : List α) : Option α :=
  match rows with
  | [r] => some r
  | _ => none

/-! ## Signature generator (`src/lib/vote-signature.ts`)

`generateVoteSignature` builds the string `` `${pollId}:${userAgent}${ip ? `:${ip}` : ''}` ``
and digests it with HMAC-SHA256 under the server secret.  The HMAC
primitive comes from Node's `crypto` library (an external collaborator),
so the embedding is parametrised by the keyed digest function
`hmac : (key data : String) → String`; every source-level statement below
holds for an arbitrary digest. -/

/-- The data string handed to the digest, including the JavaScript
truthiness test on `ip` (`ip ? ... : ''`): an empty-string ip contributes
nothing, exactly like an absent one. -/
def voteData (pollId userAgent : String) (ip : Option String) : String :=
  pollId ++ ":" ++ userAgent ++
    (match ip with
     | some i => if i = "" then "" else ":" ++ i
     | none => "")

/-- `generateVoteSignature(pollId, userAgent, ip?)`. -/
def generateVoteSignature (hmac : String → String → String) (secret : String)
    (pollId userAgent : String) (ip : Option String) : String :=
  hmac secret (voteData pollId userAgent ip)

/-- `verifyVoteSignature(pollId, userAgent, signature, ip?)`: recomputes
the signature and compares with strict string equality. -/
def verifyVoteSignature (hmac : String → String → String) (secret : String)
    (pollId userAgent signature : String) (ip : Option String) : Bool :=
  generateVoteSignature hmac secret pollId userAgent ip == signature

/-- Module initialization: `const VOTE_SIGNING_SECRET = process.env.VOTE_SIGNING_SECRET;
if (!VOTE_SIGNING_SECRET) throw ...`.  An unset variable is `none`; the
truthiness test also rejects the empty string. -/
def initVoteSignature (secret : Option String) : Except String String :=
  match secret with
  | none => .error "VOTE_SIGNING_SECRET environment variable is required"
  | some s =>
    if s = "" then .error "VOTE_SIGNING_SECRET environment variable is required"
    else .ok s

/-! ## Rate limiter (`src/lib/rate-limiter.ts`) -/

/-- One entry of the in-memory store, per key `clientIP:action`. -/
structure RateLimitEntry where
  count : Nat
  resetTime : Nat
  deriving Repr, DecidableEq

/-- The result of `checkRateLimit`. `remaining` is a JavaScript number
(`maxRequests - count` can run on untruncated integers), so `Int`. -/
structure RateLimitResult where
  allowed : Bool
  remaining : Int
  resetTime : Nat
  deriving Repr, DecidableEq

/-- `checkRateLimit(action, windowMs = 60000, maxRequests = 20)` body, for
a single key: given the current clock and the entry stored for the key
(`none` on the first request), returns the result and the entry the store
holds afterwards (rejection does not modify the entry). -/
def checkRateLimit (windowMs maxRequests : Nat) (now : Nat)
    (entry : Option RateLimitEntry) : RateLimitResult × RateLimitEntry :=
  match entry with
  | none =>
    (⟨true, (maxRequests : Int) - 1, now + windowMs⟩, ⟨1, now + windowMs⟩)
  | some e =>
    if now > e.resetTime then
      (⟨true, (maxRequests : Int) - 1, now + windowMs⟩, ⟨1, now + windowMs⟩)
    else if e.count ≥ maxRequests then
      (⟨false, 0, e.resetTime⟩, e)
    else
      (⟨true, (maxRequests : Int) - (e.count + 1), e.resetTime⟩,
       ⟨e.count + 1, e.resetTime⟩)

/-- Runs a sequence of `checkRateLimit` calls on one key at the given
clock readings, starting from an empty store; returns the `allowed`
verdicts in order. -/
def rateLimitRun (windowMs maxRequests : Nat) :
    List Nat → Option RateLimitEntry → List Bool
  | [], _ => []
  | t :: ts, st =>
    let (res, st') := checkRateLimit windowMs maxRequests t st
    res.allowed :: rateLimitRun windowMs maxRequests ts (some st')

/-! ## Error handling (`src/lib/error-handling.ts`) -/

/-- The shape of a backend error as inspected by `getFriendlyErrorMessage`:
`error?.code` and `error?.message`, each possibly absent. -/
structure BackendError where
  code : Option String
  message : Option String
  deriving Repr, DecidableEq

/-- `DB_ERROR_MESSAGES`: database error codes to friendly messages. -/
def dbErrorMessages : List (String × String) :=
  [("23505", "This action has already been completed."),
   ("23503", "Referenced item not found."),
   ("23502", "Required field is missing."),
   ("42501", "You do not have permission to perform this action."),
   ("42P01", "Requested resource not found."),
   ("PGRST116", "Requested resource not found."),
   ("PGRST301", "You do not have permission to perform this action."),
   ("PGRST302", "Authentication required."),
   ("PGRST303", "You do not have permission to perform this action.")]

/-- `SUPABASE_ERROR_MESSAGES`: exact error-message keys to friendly
messages (the JavaScript object literal repeats some `invalid_webhook_*`
keys with identical values; an object holds each key once). -/
def supabaseErrorMessages : List (String × String) :=
  [("invalid_credentials", "Invalid email or password."),
   ("email_not_confirmed", "Please check your email and confirm your account."),
   ("weak_password", "Password is too weak. Please choose a stronger password."),
   ("user_not_found", "User not found."),
   ("email_address_invalid", "Please enter a valid email address."),
   ("signup_disabled", "New account registration is currently disabled."),
   ("email_address_not_authorized", "This email address is not authorized."),
   ("invalid_request", "Invalid request. Please try again."),
   ("invalid_grant", "Invalid credentials."),
   ("invalid_token", "Session expired. Please log in again."),
   ("token_expired", "Session expired. Please log in again."),
   ("refresh_token_not_found", "Session expired. Please log in again."),
   ("invalid_refresh_token", "Session expired. Please log in again."),
   ("invalid_otp", "Invalid verification code."),
   ("otp_expired", "Verification code has expired."),
   ("email_rate_limit_exceeded", "Too many requests. Please try again later."),
   ("sms_rate_limit_exceeded", "Too many requests. Please try again later."),
   ("phone_number_invalid", "Please enter a valid phone number."),
   ("invalid_phone_number", "Please enter a valid phone number."),
   ("phone_number_not_found", "Phone number not found."),
   ("invalid_email", "Please enter a valid email address."),
   ("invalid_password", "Password does not meet requirements."),
   ("invalid_user_data", "Invalid user information provided."),
   ("invalid_claims", "Invalid user claims."),
   ("invalid_audience", "Invalid audience."),
   ("invalid_issuer", "Invalid issuer."),
   ("invalid_jwt", "Invalid authentication token."),
   ("invalid_webhook", "Invalid webhook request."),
   ("invalid_webhook_signature", "Invalid webhook signature."),
   ("invalid_webhook_payload", "Invalid webhook payload."),
   ("invalid_webhook_event", "Invalid webhook event."),
   ("invalid_webhook_topic", "Invalid webhook topic."),
   ("invalid_webhook_version", "Invalid webhook version."),
   ("invalid_webhook_environment", "Invalid webhook environment."),
   ("invalid_webhook_application", "Invalid webhook application."),
   ("invalid_webhook_organization", "Invalid webhook organization."),
   ("invalid_webhook_user", "Invalid webhook user."),
   ("invalid_webhook_team", "Invalid webhook team."),
   ("invalid_webhook_project", "Invalid webhook project."),
   ("invalid_webhook_workspace", "Invalid webhook workspace.")]

/-- Key lookup in a message table (a JavaScript object indexed by key). -/
def lookupTable (tbl : List (String × String)) (k : String) : Option String :=
  (tbl.find? (fun p => p.1 == k)).map (fun p => p.2)

/-- `s.includes(pat)`: substring test, on the character lists. -/
def containsStr (s pat : String) : Bool :=
  s.data.tails.any (fun t => pat.data.isPrefixOf t)

/-- The `error?.message?.includes(...)` pattern cascade, in source order. -/
def patternMessages : List (String × String) :=
  [("duplicate key", "This item already exists."),
   ("foreign key", "Referenced item not found."),
   ("permission denied", "You do not have permission to perform this action."),
   ("not found", "Requested resource not found."),
   ("unauthorized", "Authentication required."),
   ("forbidden", "You do not have permission to perform this action."),
   ("rate limit", "Too many requests. Please try again later."),
   ("timeout", "Request timed out. Please try again."),
   ("network", "Network error. Please check your connection and try again.")]

/-- The final fallback message. -/
def genericErrorMessage : String :=
  "An unexpected error occurred. Please try again."

/-- The message-based half of `getFriendlyErrorMessage`: exact key lookup
in `SUPABASE_ERROR_MESSAGES`, then the `includes` patterns in order, then
the generic fallback. -/
def friendlyFromMessage (message : Option String) : String :=
  match message with
  | none => genericErrorMessage
  | some m =>
    match lookupTable supabaseErrorMessages m with
    | some fm => fm
    | none =>
      match patternMessages.find? (fun p => containsStr m p.1) with
      | some p => p.2
      | none => genericErrorMessage

/-- `getFriendlyErrorMessage(error)`: code table first
(`if (error?.code && DB_ERROR_MESSAGES[error.code])`), then the
message-based cascade.  (The logging call has no effect on the result.) -/
def getFriendlyErrorMessage (e : BackendError) : String :=
  match e.code with
  | some c =>
    match lookupTable dbErrorMessages c with
    | some m => m
    | none => friendlyFromMessage e.message
  | none => friendlyFromMessage e.message

/-- ASCII lowercasing, modelling `String.prototype.toLowerCase` on the
ASCII option texts the validation compares. -/
def jsToLower (s : String) : String := String.mk (s.data.map Char.toLower)

/-- ASCII whitespace for `String.prototype.trim`. -/
def isJsSpace (c : Char) : Bool :=
  c = ' ' || c = '\t' || c = '\n' || c = '\r' || c = '\x0b' || c = '\x0c'

/-- `String.prototype.trim`: strip whitespace from both ends. -/
def jsTrim (s : String) : String :=
  String.mk (((s.data.dropWhile isJsSpace).reverse.dropWhile isJsSpace).reverse)

/-- Is `c` a word character for the regex `\w` class. -/
def isWordChar (c : Char) : Bool :=
  (c ≥ 'a' && c ≤ 'z') || (c ≥ 'A' && c ≤ 'Z') || (c ≥ '0' && c ≤ '9') || c = '_'

/-- Case-insensitive ASCII prefix test, for the `gi` regex flags. -/
def ciIsPrefixOf : List Char → List Char → Bool
  | [], _ => true
  | _ :: _, [] => false
  | p :: ps, c :: cs => (p.toLower == c.toLower) && ciIsPrefixOf ps cs

/-- Scanner for global case-insensitive removal of the nonempty literal
pattern `q :: qs`: leftmost match removed, scanning resumes after the
removed text (no rescan of the produced string).  Structural recursion on
a fuel count that never drops below the list length, so the kernel can
evaluate it on concrete inputs. -/
def removeAllCIAux (q : Char) (qs : List Char) : Nat → List Char → List Char
  | 0, l => l
  | _ + 1, [] => []
  | fuel + 1, c :: cs =>
    if ciIsPrefixOf (q :: qs) (c :: cs) then
      removeAllCIAux q qs fuel (cs.drop qs.length)
    else
      c :: removeAllCIAux q qs fuel cs

/-- `.replace(/pat/gi, '')` for a literal pattern (the empty pattern does
not occur in the source). -/
def removeAllCI (pat : List Char) (l : List Char) : List Char :=
  match pat with
  | [] => l
  | q :: qs => removeAllCIAux q qs l.length l

/-- Global removal of `/on\w+=/gi` matches: `on` (any case) followed by a
maximal nonempty word-character run followed by `=`.  Since `=` is not a
word character, only the maximal run can be followed by `=`, so no regex
backtracking case survives. -/
def removeEventHandlersAux : Nat → List Char → List Char
  | 0, l => l
  | _ + 1, [] => []
  | _ + 1, [c] => [c]
  | fuel + 1, a :: b :: cs =>
    if (a.toLower == 'o') && (b.toLower == 'n') then
      let run := cs.takeWhile isWordChar
      let rest := cs.dropWhile isWordChar
      if run.length > 0 && rest.headD ' ' == '=' then
        removeEventHandlersAux fuel (rest.drop 1)
      else
        a :: removeEventHandlersAux fuel (b :: cs)
    else
      a :: removeEventHandlersAux fuel (b :: cs)

/-- Global removal of `/on\w+=/gi` matches, fuelled like `removeAllCIAux`. -/
def removeEventHandlers (l : List Char) : List Char :=
  removeEventHandlersAux l.length l

/-- `sanitizeText(text)`: strip `<`/`>`, strip `javascript:` (case-
insensitive, global), strip inline-event-handler prefixes `on\w+=`, then
trim.  Non-string input returns `""` (not representable here: the model
takes strings). -/
def sanitizeText (text : String) : String :=
  let s1 := text.data.filter (fun c => c ≠ '<' && c ≠ '>')
  let s2 := removeAllCI "javascript:".data s1
  let s3 := removeEventHandlers s2
  jsTrim (String.mk s3)

/-! ## Validation layer (the Zod schemas in `poll-actions.ts`)

`createPollSchema`/`updatePollSchema` are identical objects
`{question: pollQuestionSchema, options: pollOptionsSchema}`.  Zod
collects issues in a fixed order — object keys in shape order (question
before options), a string schema's checks in chain order, an array's own
size checks before its elements, elements in index order, and the
`.refine` uniqueness predicate only once the base array parse succeeds —
and the actions surface `error.errors[0].message`.  The embedding
computes that first issue directly.  `.trim()` sits after the checks in
each chain, so lengths are checked on the incoming (already sanitized,
hence already trimmed) string and the parsed data is the trimmed string. -/

/-- First failing check of `pollQuestionSchema` on a question, if any:
`.min(1).min(10).max(500)` in chain order. -/
def questionError (q : String) : Option String :=
  if q.length < 1 then some "Question is required"
  else if q.length < 10 then some "Question must be at least 10 characters"
  else if q.length > 500 then some "Question must be less than 500 characters"
  else none

/-- First failing check of the element schema on one option:
`.min(1).min(2).max(200)` in chain order. -/
def optionError (o : String) : Option String :=
  if o.length < 1 then some "Option cannot be empty"
  else if o.length < 2 then some "Option must be at least 2 characters"
  else if o.length > 200 then some "Option must be less than 200 characters"
  else none

/-- The `.refine` predicate: `new Set(options.map(toLowerCase)).size ===
options.length`, i.e. the lowercased options are pairwise distinct. -/
def optionsUnique (options : List String) : Bool :=
  ((options.map jsToLower).dedup.length == options.length)

/-- `createPollSchema.safeParse({question, options})` reduced to the
observable used by the actions: the parsed (trimmed) data on success, or
`error.errors[0].message` on failure. -/
def validatePollInput (question : String) (options : List String) :
    Except String (String × List String) :=
  match questionError question with
  | some msg => .error msg
  | none =>
    if options.length < 2 then .error "At least 2 options are required"
    else if options.length > 10 then .error "Maximum 10 options allowed"
    else
      match options.findSome? optionError with
      | some msg => .error msg
      | none =>
        if optionsUnique options then
          .ok (jsTrim question, options.map jsTrim)
        else
          .error "Options must be unique (case-insensitive)"

/-! ## Server actions (`src/app/lib/actions/poll-actions.ts`)

Each action first awaits `rateLimitCheck(action)`; the embedding takes
its verdict as the boolean `rateLimitOk` (the store key is per client IP
and per action, outside a single call's data flow).  The authenticated
user from `supabase.auth.getUser()` is `user : Option String` (the
`userError` branch, a backend failure, is not modelled).  Store tables
are row lists; the migration's unique partial index on
(poll_id, signature) makes a vote insert with an existing pair fail with
PostgreSQL error code 23505. -/

/-- The rate-limited early return shared by all actions
(`rateLimitCheck` maps a disallowed verdict to this envelope). -/
def rateLimitedResult : ActionResult :=
  ⟨false, some "Too many requests. Please try again later."⟩

/-- The option pipeline shared by createPoll and updatePoll:
`(formData.getAll("options").filter(Boolean) as string[]).map(sanitizeText)`
(the Boolean filter drops empty strings before sanitizing). -/
def sanitizedOptions (rawOptions : List String) : List String :=
  (rawOptions.filter (fun s => s ≠ "")).map sanitizeText

/-- Does a vote with this (poll_id, signature) pair already exist —
the condition under which the store's unique index rejects the insert. -/
def voteConflict (votes : List Vote) (pollId sig : String) : Bool :=
  votes.any (fun v => v.poll_id == pollId && v.signature == sig)

/-- `submitVote(pollId, optionIndex, voteSignature)`: rate limit, poll
existence (`select('id').eq('id', pollId).single()`), `optionIndex < 0`
check, signature truthiness check, then the insert, translating a 23505
conflict.  Returns the envelope and the votes table afterwards. -/
def submitVote (rateLimitOk : Bool) (user : Option String) (polls : List Poll)
    (votes : List Vote) (pollId : String) (optionIndex : Int)
    (voteSignature : Option String) : ActionResult × List Vote :=
  if !rateLimitOk then (rateLimitedResult, votes)
  else
    match selectSingle (polls.filter (fun p => p.id == pollId)) with
    | none => (⟨false, some "Poll not found."⟩, votes)
    | some _ =>
      if optionIndex < 0 then (⟨false, some "Invalid option selected."⟩, votes)
      else
        match voteSignature with
        | none => (⟨false, some "Vote signature required."⟩, votes)
        | some sig =>
          if sig = "" then (⟨false, some "Vote signature required."⟩, votes)
          else if voteConflict votes pollId sig then
            (⟨false, some "You have already voted on this poll."⟩, votes)
          else
            (⟨true, none⟩, votes ++ [⟨pollId, user, optionIndex, sig⟩])

/-- `createPoll(formData)`: rate limit, sanitize
(`formData.getAll("options").filter(Boolean)` drops empty strings before
sanitizing), validate, require a user, insert.  Returns the envelope and
the polls table afterwards; `newPollId` stands for the id the store
assigns. -/
def createPoll (rateLimitOk : Bool) (user : Option String) (polls : List Poll)
    (newPollId : String) (rawQuestion : String) (rawOptions : List String) :
    ActionResult × List Poll :=
  if !rateLimitOk then (rateLimitedResult, polls)
  else
    let question := sanitizeText rawQuestion
    let options := sanitizedOptions rawOptions
    match validatePollInput question options with
    | .error msg => (⟨false, some msg⟩, polls)
    | .ok (vq, vopts) =>
      match user with
      | none => (⟨false, some "You must be logged in"⟩, polls)
      | some u => (⟨true, none⟩, polls ++ [⟨newPollId, u, vq, vopts⟩])

/-- `updatePoll(pollId, formData)`: rate limit, sanitize, validate,
require a user, then `update(...).eq('id', pollId).eq('user_id',
user.id).select()`; zero returned rows is the merged
not-found-or-forbidden error. -/
def updatePoll (rateLimitOk : Bool) (user : Option String) (polls : List Poll)
    (pollId : String) (rawQuestion : String) (rawOptions : List String) :
    ActionResult × List Poll :=
  if !rateLimitOk then (rateLimitedResult, polls)
  else
    let question := sanitizeText rawQuestion
    let options := sanitizedOptions rawOptions
    match validatePollInput question options with
    | .error msg => (⟨false, some msg⟩, polls)
    | .ok (vq, vopts) =>
      match user with
      | none => (⟨false, some "You must be logged in"⟩, polls)
      | some u =>
        let touched := polls.filter (fun p => p.id == pollId && p.user_id == u)
        if touched.isEmpty then
          (⟨false, some "Poll not found or you don't have permission to update it."⟩,
           polls)
        else
          (⟨true, none⟩,
           polls.map (fun p =>
             if p.id == pollId && p.user_id == u then
               { p with question := vq, options := vopts }
             else p))

/-- `deletePoll(id)`: rate limit, require a user, then
`delete().eq('id', id).eq('user_id', user.id).select()`; zero returned
rows is the merged not-found-or-forbidden error. -/
def deletePoll (rateLimitOk : Bool) (user : Option String) (polls : List Poll)
    (id : String) : ActionResult × List Poll :=
  if !rateLimitOk then (rateLimitedResult, polls)
  else
    match user with
    | none => (⟨false, some "You must be logged in"⟩, polls)
    | some u =>
      let deleted := polls.filter (fun p => p.id == id && p.user_id == u)
      if deleted.isEmpty then
        (⟨false, some "Poll not found or you don't have permission to delete it."⟩,
         polls)
      else
        (⟨true, none⟩, polls.filter (fun p => !(p.id == id && p.user_id == u)))

/-- Every string the friendly-error tables can produce: the values of the
code table, of the exact-message table, of the pattern cascade, and the
generic fallback. -/
def friendlyMessagePool : List String :=
  dbErrorMessages.map (fun p => p.2) ++ supabaseErrorMessages.map (fun p => p.2) ++
    patternMessages.map (fun p => p.2) ++ [genericErrorMessage]

/-- The result shape of `getPollById`. -/
structure PollByIdResult where
  poll : Option Poll
  error : Option String
  deriving Repr, DecidableEq

/-- The PostgREST error produced by `.single()` on a zero-row result. -/
def pgrstZeroRowsError : BackendError :=
  ⟨some "PGRST116", some "JSON object requested, multiple (or no) rows returned"⟩

/-- `getPollById(id)`: requires a user (`userError || !user` both return
the authentication error), then
`select('*').eq('id', id).eq('user_id', user.id).single()`; a `.single()`
failure is mapped through `getFriendlyErrorMessage`. -/
def getPollById (user : Option String) (polls : List Poll) (id : String) :
    PollByIdResult :=
  match user with
  | none => ⟨none, some "Authentication required"⟩
  | some u =>
    match selectSingle (polls.filter (fun p => p.id == id && p.user_id == u)) with
    | none => ⟨none, some (getFriendlyErrorMessage pgrstZeroRowsError)⟩
    | some p => ⟨some p, none⟩

/-! ## Helper lemmas -/

theorem str_append_cancel_right {a b c : String} (h : a ++ c = b ++ c) : a = b := by
  have hd := congrArg String.data h
  simp only [String.data_append] at hd
  exact congrArg String.mk (List.append_cancel_right hd)

theorem str_append_cancel_left {a b c : String} (h : a ++ b = a ++ c) : b = c := by
  have hd := congrArg String.data h
  simp only [String.data_append] at hd
  exact congrArg String.mk (List.append_cancel_left hd)

/-! ## Claim theorems -/

/-- C1 (code bug): `submitVote` checks only `optionIndex < 0`, never the
option count: on a two-option poll, index 5 is accepted and the vote is
inserted with `option_index = 5` and result `{ok := true}`, while the
claim (and the source comments above the check) require an
invalid-option rejection with no insert.  The second conjunct shows the
lower bound is the only bound enforced. -/
theorem C1_submitVote_out_of_range_inserted :
    submitVote true none [⟨"p1", "owner1", "What is your favorite color?", ["Red", "Blue"]⟩]
        [] "p1" 5 (some "sig2")
      = (⟨true, none⟩, [⟨"p1", none, 5, "sig2"⟩]) ∧
    submitVote true none [⟨"p1", "owner1", "What is your favorite color?", ["Red", "Blue"]⟩]
        [] "p1" (-1) (some "sig2")
      = (⟨false, some "Invalid option selected."⟩, []) :=
  ⟨rfl, rfl⟩

/-- C2: once a `submitVote` call reaches the insert (poll found, index
nonnegative, signature nonempty), a (poll_id, signature) pair already in
the store yields `{ok := false, error := "You have already voted on this
poll."}` with the votes unchanged, and a fresh pair yields `{ok := true}`
with the vote appended. -/
theorem C2_submitVote_duplicate_translation
    (user : Option String) (polls : List Poll) (votes : List Vote)
    (pollId : String) (idx : Int) (sig : String)
    (hpoll : (selectSingle (polls.filter (fun p => p.id == pollId))).isSome = true)
    (hidx : 0 ≤ idx) (hsig : sig ≠ "") :
    (voteConflict votes pollId sig = true →
      submitVote true user polls votes pollId idx (some sig)
        = (⟨false, some "You have already voted on this poll."⟩, votes)) ∧
    (voteConflict votes pollId sig = false →
      submitVote true user polls votes pollId idx (some sig)
        = (⟨true, none⟩, votes ++ [⟨pollId, user, idx, sig⟩])) := by
  obtain ⟨p, hp⟩ := Option.isSome_iff_exists.mp hpoll
  have hneg : ¬ idx < 0 := by omega
  constructor <;> intro hc <;> simp [submitVote, hp, hneg, hsig, hc]

theorem C2_witness :
    submitVote true none [⟨"p1", "o1", "What is your favorite color?", ["Red", "Blue"]⟩]
        [⟨"p1", none, 0, "sig"⟩] "p1" 1 (some "sig")
      = (⟨false, some "You have already voted on this poll."⟩, [⟨"p1", none, 0, "sig"⟩]) ∧
    submitVote true none [⟨"p1", "o1", "What is your favorite color?", ["Red", "Blue"]⟩]
        [] "p1" 0 (some "sig")
      = (⟨true, none⟩, [⟨"p1", none, 0, "sig"⟩]) :=
  ⟨(C2_submitVote_duplicate_translation none
      [⟨"p1", "o1", "What is your favorite color?", ["Red", "Blue"]⟩]
      [⟨"p1", none, 0, "sig"⟩] "p1" 1 "sig" rfl (by decide) (by decide)).1 rfl,
   (C2_submitVote_duplicate_translation none
      [⟨"p1", "o1", "What is your favorite color?", ["Red", "Blue"]⟩]
      [] "p1" 0 "sig" rfl (by decide) (by decide)).2 rfl⟩

/-- C4 counterexample: the truthiness test `ip ? ... : ''` makes an
empty-string ip contribute nothing to the signed data, exactly like an
absent ip, so changing the ip input from absent to present-but-empty
leaves the data — and hence the signature, for any digest — unchanged. -/
theorem C4_empty_ip_signature_unchanged :
    voteData "poll1" "agent" (some "") = voteData "poll1" "agent" none ∧
    generateVoteSignature (fun k d => k ++ "|" ++ d) "secret" "poll1" "agent" (some "")
      = generateVoteSignature (fun k d => k ++ "|" ++ d) "secret" "poll1" "agent" none ∧
    (some "" : Option String) ≠ (none : Option String) :=
  ⟨rfl, rfl, by decide⟩

/-- C4 (amended): for every digest, verification of a generated signature
round-trips; generate is a pure function of its inputs; and changing the
pollId, the userAgent, the ip between two nonempty values, or the ip from
nonempty to absent changes the signed data string (so the signature too,
for a collision-free digest).  The excluded case — ip changed between
absent and present-but-empty — is the counterexample above. -/
theorem C4_signature_roundtrip_and_input_sensitivity :
    (∀ (hmac : String → String → String) (secret pollId userAgent : String)
       (ip : Option String),
       verifyVoteSignature hmac secret pollId userAgent
         (generateVoteSignature hmac secret pollId userAgent ip) ip = true) ∧
    (∀ (p1 p2 ua : String) (ip : Option String),
       voteData p1 ua ip = voteData p2 ua ip → p1 = p2) ∧
    (∀ (p ua1 ua2 : String) (ip : Option String),
       voteData p ua1 ip = voteData p ua2 ip → ua1 = ua2) ∧
    (∀ (p ua i1 i2 : String), i1 ≠ "" → i2 ≠ "" →
       voteData p ua (some i1) = voteData p ua (some i2) → i1 = i2) ∧
    (∀ (p ua i : String), i ≠ "" →
       voteData p ua (some i) ≠ voteData p ua none) := by
  refine ⟨?_, ?_, ?_, ?_, ?_⟩
  · intro hmac secret p ua ip
    simp [verifyVoteSignature]
  · intro p1 p2 ua ip h
    simp only [voteData] at h
    exact str_append_cancel_right (str_append_cancel_right (str_append_cancel_right h))
  · intro p ua1 ua2 ip h
    simp only [voteData] at h
    exact str_append_cancel_left (str_append_cancel_right h)
  · intro p ua i1 i2 h1 h2 h
    simp only [voteData, if_neg h1, if_neg h2] at h
    exact str_append_cancel_left (str_append_cancel_left h)
  · intro p ua i hi h
    have hlen := congrArg String.length h
    simp only [voteData, if_neg hi, String.length_append] at hlen
    have hc : (":" : String).length = 1 := rfl
    have he : ("" : String).length = 0 := rfl
    omega

theorem C4_witness :
    verifyVoteSignature (fun k d => k ++ "#" ++ d) "s" "p" "u"
      (generateVoteSignature (fun k d => k ++ "#" ++ d) "s" "p" "u" (some "9.9.9.9"))
      (some "9.9.9.9") = true ∧
    voteData "a" "b" (some "c") ≠ voteData "a" "b" none :=
  ⟨C4_signature_roundtrip_and_input_sensitivity.1 (fun k d => k ++ "#" ++ d)
      "s" "p" "u" (some "9.9.9.9"),
   C4_signature_roundtrip_and_input_sensitivity.2.2.2.2 "a" "b" "c" (by decide)⟩

/-- C8: with no signing secret configured (the variable unset, or set to
the empty string, which JavaScript truthiness treats the same), module
initialization fails; with a nonempty secret it succeeds and
generate/verify round-trip under that secret for any digest. -/
theorem C8_signing_secret_required (s : String) (hs : s ≠ "") :
    (initVoteSignature none).isOk = false ∧
    initVoteSignature (some s) = .ok s ∧
    (∀ (hmac : String → String → String) (p ua : String) (ip : Option String),
      verifyVoteSignature hmac s p ua (generateVoteSignature hmac s p ua ip) ip = true) := by
  refine ⟨rfl, ?_, ?_⟩
  · simp [initVoteSignature, hs]
  · intro hmac p ua ip
    simp [verifyVoteSignature]

theorem C8_witness :
    (initVoteSignature none).isOk = false ∧
    initVoteSignature (some "topsecret") = .ok "topsecret" ∧
    verifyVoteSignature (fun k d => k ++ d) "topsecret" "p1" "ua"
      (generateVoteSignature (fun k d => k ++ d) "topsecret" "p1" "ua" none) none = true :=
  ⟨(C8_signing_secret_required "topsecret" (by decide)).1,
   (C8_signing_secret_required "topsecret" (by decide)).2.1,
   (C8_signing_secret_required "topsecret" (by decide)).2.2 (fun k d => k ++ d) "p1" "ua" none⟩

/-- C3: the fixed-window counter.  First request for a key, or a request
after the window (`now > resetTime`): the entry resets to count 1 with
`resetTime = now + window` and the call is allowed with `remaining =
max - 1`.  Within the window: below max the count increments and the call
is allowed; at or above max the call is rejected and the entry is left
unchanged (the count saturates).  Concretely, with window 60000 and max
20, twenty calls inside one window succeed, the 21st is rejected, and a
call after the window elapses succeeds again. -/
theorem C3_rate_limiter_fixed_window (w m now : Nat) (e : RateLimitEntry) :
    (checkRateLimit w m now none
      = (⟨true, (m : Int) - 1, now + w⟩, ⟨1, now + w⟩)) ∧
    (now > e.resetTime →
      checkRateLimit w m now (some e)
        = (⟨true, (m : Int) - 1, now + w⟩, ⟨1, now + w⟩)) ∧
    (now ≤ e.resetTime → e.count < m →
      checkRateLimit w m now (some e)
        = (⟨true, (m : Int) - (e.count + 1), e.resetTime⟩, ⟨e.count + 1, e.resetTime⟩)) ∧
    (now ≤ e.resetTime → e.count ≥ m →
      checkRateLimit w m now (some e) = (⟨false, 0, e.resetTime⟩, e)) ∧
    (rateLimitRun 60000 20 (List.replicate 20 0 ++ [1, 60001]) none
      = List.replicate 20 true ++ [false, true]) := by
  refine ⟨rfl, ?_, ?_, ?_, by decide⟩
  · intro h
    simp [checkRateLimit, h]
  · intro h1 h2
    have hng : ¬ now > e.resetTime := by omega
    have hns : ¬ e.count ≥ m := by omega
    simp [checkRateLimit, hng, hns]
  · intro h1 h2
    have hng : ¬ now > e.resetTime := by omega
    simp [checkRateLimit, hng, h2]

theorem C3_witness :
    checkRateLimit 60000 20 0 none = (⟨true, 19, 60000⟩, ⟨1, 60000⟩) ∧
    checkRateLimit 60000 20 70000 (some ⟨20, 60000⟩) = (⟨true, 19, 130000⟩, ⟨1, 130000⟩) ∧
    checkRateLimit 60000 20 5 (some ⟨3, 60000⟩) = (⟨true, 16, 60000⟩, ⟨4, 60000⟩) ∧
    checkRateLimit 60000 20 5 (some ⟨20, 60000⟩) = (⟨false, 0, 60000⟩, ⟨20, 60000⟩) :=
  ⟨(C3_rate_limiter_fixed_window 60000 20 0 ⟨0, 0⟩).1,
   (C3_rate_limiter_fixed_window 60000 20 70000 ⟨20, 60000⟩).2.1 (by decide),
   (C3_rate_limiter_fixed_window 60000 20 5 ⟨3, 60000⟩).2.2.1 (by decide) (by decide),
   (C3_rate_limiter_fixed_window 60000 20 5 ⟨20, 60000⟩).2.2.2.1 (by decide) (by decide)⟩

/-- C6: for an authenticated caller, deleting a poll owned by someone
else returns exactly the same result — the same envelope and the same
unchanged store — as deleting an id that matches no poll: both delete
zero rows and surface the single merged not-found-or-forbidden error. -/
theorem C6_deletePoll_nonowner_indistinguishable (u : String) (polls : List Poll)
    (idOther idMissing : String)
    (hnotowned : ∀ p ∈ polls, p.id = idOther → p.user_id ≠ u)
    (hexists : ∃ p ∈ polls, p.id = idOther)
    (hmissing : ∀ p ∈ polls, p.id ≠ idMissing) :
    deletePoll true (some u) polls idOther = deletePoll true (some u) polls idMissing := by
  have h1 : polls.filter (fun p => p.id == idOther && p.user_id == u) = [] := by
    rw [List.filter_eq_nil_iff]
    intro p hp
    simp only [Bool.and_eq_true, beq_iff_eq, not_and]
    exact fun hid => hnotowned p hp hid
  have h2 : polls.filter (fun p => p.id == idMissing && p.user_id == u) = [] := by
    rw [List.filter_eq_nil_iff]
    intro p hp
    simp only [Bool.and_eq_true, beq_iff_eq, not_and]
    intro hid
    exact absurd hid (hmissing p hp)
  simp [deletePoll, h1, h2]

theorem C6_witness :
    deletePoll true (some "alice")
        [⟨"p1", "bob", "What is your favorite color?", ["Red", "Blue"]⟩] "p1"
      = deletePoll true (some "alice")
        [⟨"p1", "bob", "What is your favorite color?", ["Red", "Blue"]⟩] "p2" :=
  C6_deletePoll_nonowner_indistinguishable "alice"
    [⟨"p1", "bob", "What is your favorite color?", ["Red", "Blue"]⟩] "p1" "p2"
    (by decide) (by decide) (by decide)

/-- C10: `getPollById` is owner-scoped.  With no authenticated identity
it returns `{poll := none, error := "Authentication required"}` for every
store and id; for an authenticated caller the query filters by both the
poll id and the caller, so when the poll with that id exists but belongs
to someone else the caller gets `{poll := none}` with the not-found error
(the zero-row `.single()` failure mapped through the friendly table). -/
theorem C10_getPollById_owner_scoped (u : String) (polls : List Poll) (id : String)
    (p : Poll) (hp : p ∈ polls) (hpid : p.id = id) (hown : p.user_id ≠ u)
    (huniq : ∀ q ∈ polls, q.id = id → q = p) :
    (∀ (polls2 : List Poll) (id2 : String),
      getPollById none polls2 id2 = ⟨none, some "Authentication required"⟩) ∧
    getPollById (some u) polls id = ⟨none, some "Requested resource not found."⟩ := by
  constructor
  · intro polls2 id2
    rfl
  · have hf : polls.filter (fun q => q.id == id && q.user_id == u) = [] := by
      rw [List.filter_eq_nil_iff]
      intro q hq
      simp only [Bool.and_eq_true, beq_iff_eq, not_and]
      intro hid
      rw [huniq q hq hid]
      exact hown
    simp only [getPollById, hf]
    rfl

theorem C10_witness :
    getPollById none [] "p1" = ⟨none, some "Authentication required"⟩ ∧
    getPollById (some "alice")
        [⟨"p1", "bob", "What is your favorite color?", ["Red", "Blue"]⟩] "p1"
      = ⟨none, some "Requested resource not found."⟩ :=
  ⟨(C10_getPollById_owner_scoped "alice"
      [⟨"p1", "bob", "What is your favorite color?", ["Red", "Blue"]⟩] "p1"
      ⟨"p1", "bob", "What is your favorite color?", ["Red", "Blue"]⟩
      (by decide) (by decide) (by decide) (by decide)).1 [] "p1",
   (C10_getPollById_owner_scoped "alice"
      [⟨"p1", "bob", "What is your favorite color?", ["Red", "Blue"]⟩] "p1"
      ⟨"p1", "bob", "What is your favorite color?", ["Red", "Blue"]⟩
      (by decide) (by decide) (by decide) (by decide)).2⟩

/-- C7 counterexample: `createPoll` runs validation before the identity
check, so a call with no authenticated identity and invalid input
returns the validation message, not the authentication-required error
that the claim promises for every unauthenticated call. -/
theorem C7_validation_precedes_auth :
    createPoll true none [] "np" "short" ["Red", "Blue"]
      = (⟨false, some "Question must be at least 10 characters"⟩, []) ∧
    (some "Question must be at least 10 characters" : Option String)
      ≠ some "You must be logged in" :=
  ⟨rfl, by decide⟩

/-- C7 (amended): an owner-scoped mutation (createPoll, updatePoll,
deletePoll) that passes rate limiting — and, where a validation layer
exists, validation — returns the authentication-required envelope and
issues no store mutation when no identity is present; submitVote
requires no identity and stores an absent user as a null account
reference. -/
theorem C7_auth_required_for_owner_mutations :
    (∀ (polls : List Poll) (npid q : String) (opts : List String) (vq : String)
       (vopts : List String),
       validatePollInput (sanitizeText q) (sanitizedOptions opts)
         = .ok (vq, vopts) →
       createPoll true none polls npid q opts
         = (⟨false, some "You must be logged in"⟩, polls)) ∧
    (∀ (polls : List Poll) (pid q : String) (opts : List String) (vq : String)
       (vopts : List String),
       validatePollInput (sanitizeText q) (sanitizedOptions opts)
         = .ok (vq, vopts) →
       updatePoll true none polls pid q opts
         = (⟨false, some "You must be logged in"⟩, polls)) ∧
    (∀ (polls : List Poll) (id : String),
       deletePoll true none polls id = (⟨false, some "You must be logged in"⟩, polls)) ∧
    (∀ (polls : List Poll) (votes : List Vote) (pollId : String) (idx : Int) (sig : String),
       (selectSingle (polls.filter (fun p => p.id == pollId))).isSome = true →
       0 ≤ idx → sig ≠ "" → voteConflict votes pollId sig = false →
       submitVote true none polls votes pollId idx (some sig)
         = (⟨true, none⟩, votes ++ [⟨pollId, none, idx, sig⟩])) := by
  refine ⟨?_, ?_, ?_, ?_⟩
  · intro polls npid q opts vq vopts hv
    simp [createPoll, hv]
  · intro polls pid q opts vq vopts hv
    simp [updatePoll, hv]
  · intro polls id
    rfl
  · intro polls votes pollId idx sig hpoll hidx hsig hc
    obtain ⟨p, hp⟩ := Option.isSome_iff_exists.mp hpoll
    have hneg : ¬ idx < 0 := by omega
    simp [submitVote, hp, hneg, hsig, hc]

theorem C7_witness :
    createPoll true none [] "np" "What is your favorite color?" ["Red", "Blue"]
      = (⟨false, some "You must be logged in"⟩, []) ∧
    updatePoll true none [] "p1" "What is your favorite color?" ["Red", "Blue"]
      = (⟨false, some "You must be logged in"⟩, []) ∧
    deletePoll true none [] "p1" = (⟨false, some "You must be logged in"⟩, []) ∧
    submitVote true none [⟨"p1", "o1", "What is your favorite color?", ["Red", "Blue"]⟩]
        [] "p1" 0 (some "sig9")
      = (⟨true, none⟩, [⟨"p1", none, 0, "sig9"⟩]) :=
  ⟨C7_auth_required_for_owner_mutations.1 [] "np" "What is your favorite color?"
      ["Red", "Blue"] "What is your favorite color?" ["Red", "Blue"] rfl,
   C7_auth_required_for_owner_mutations.2.1 [] "p1" "What is your favorite color?"
      ["Red", "Blue"] "What is your favorite color?" ["Red", "Blue"] rfl,
   C7_auth_required_for_owner_mutations.2.2.1 [] "p1",
   C7_auth_required_for_owner_mutations.2.2.2
      [⟨"p1", "o1", "What is your favorite color?", ["Red", "Blue"]⟩]
      [] "p1" 0 "sig9" rfl (by decide) (by decide) rfl⟩

theorem lookupTable_mem {tbl : List (String × String)} {k m : String}
    (h : lookupTable tbl k = some m) : m ∈ tbl.map (fun p => p.2) := by
  unfold lookupTable at h
  obtain ⟨p, hp, hpe⟩ := Option.map_eq_some'.mp h
  rw [← hpe]
  exact List.mem_map_of_mem _ (List.mem_of_find?_eq_some hp)

theorem mem_pool_of_db {x : String} (h : x ∈ dbErrorMessages.map (fun p => p.2)) :
    x ∈ friendlyMessagePool :=
  List.mem_append_left _ (List.mem_append_left _ (List.mem_append_left _ h))

theorem mem_pool_of_supabase {x : String}
    (h : x ∈ supabaseErrorMessages.map (fun p => p.2)) : x ∈ friendlyMessagePool :=
  List.mem_append_left _ (List.mem_append_left _ (List.mem_append_right _ h))

theorem mem_pool_of_pattern {x : String}
    (h : x ∈ patternMessages.map (fun p => p.2)) : x ∈ friendlyMessagePool :=
  List.mem_append_left _ (List.mem_append_right _ h)

theorem generic_mem_pool : genericErrorMessage ∈ friendlyMessagePool :=
  List.mem_append_right _ (List.mem_singleton_self _)

theorem friendlyFromMessage_mem (msg : Option String) :
    friendlyFromMessage msg ∈ friendlyMessagePool := by
  unfold friendlyFromMessage
  split
  · exact generic_mem_pool
  · split
    next fm hl => exact mem_pool_of_supabase (lookupTable_mem hl)
    next hl =>
      split
      next pr hf =>
        exact mem_pool_of_pattern
          (List.mem_map_of_mem _ (List.mem_of_find?_eq_some hf))
      next hf => exact generic_mem_pool

/-- C9: every result of `getFriendlyErrorMessage` is drawn from the fixed
friendly-message pool (the two tables, the pattern cascade, and the
generic fallback) — never the raw backend text; a known error code wins
over everything else; with no code, an exact message key wins next; and
an error carrying neither code nor message gets the generic fallback. -/
theorem C9_friendly_error_mapping (e : BackendError) :
    getFriendlyErrorMessage e ∈ friendlyMessagePool ∧
    (∀ c m, e.code = some c → lookupTable dbErrorMessages c = some m →
      getFriendlyErrorMessage e = m) ∧
    (∀ msg fm, e.code = none → e.message = some msg →
      lookupTable supabaseErrorMessages msg = some fm →
      getFriendlyErrorMessage e = fm) ∧
    getFriendlyErrorMessage ⟨none, none⟩ = genericErrorMessage := by
  refine ⟨?_, ?_, ?_, rfl⟩
  · unfold getFriendlyErrorMessage
    split
    · split
      next m hl => exact mem_pool_of_db (lookupTable_mem hl)
      next hl => exact friendlyFromMessage_mem _
    · exact friendlyFromMessage_mem _
  · intro c m hc hm
    simp [getFriendlyErrorMessage, hc, hm]
  · intro msg fm hc hmsg hfm
    simp [getFriendlyErrorMessage, friendlyFromMessage, hc, hmsg, hfm]

theorem C9_witness :
    getFriendlyErrorMessage ⟨some "23505", none⟩
      = "This action has already been completed." ∧
    getFriendlyErrorMessage ⟨none, some "invalid_credentials"⟩
      = "Invalid email or password." ∧
    getFriendlyErrorMessage ⟨none, none⟩ ∈ friendlyMessagePool :=
  ⟨(C9_friendly_error_mapping ⟨some "23505", none⟩).2.1 "23505"
      "This action has already been completed." rfl rfl,
   (C9_friendly_error_mapping ⟨none, some "invalid_credentials"⟩).2.2.1
      "invalid_credentials" "Invalid email or password." rfl rfl rfl,
   (C9_friendly_error_mapping ⟨none, none⟩).1⟩

theorem questionError_eq_none_iff (q : String) :
    questionError q = none ↔ 10 ≤ q.length ∧ q.length ≤ 500 := by
  unfold questionError
  split_ifs with h1 h2 h3 <;> simp <;> omega

theorem optionError_eq_none_iff (o : String) :
    optionError o = none ↔ 2 ≤ o.length ∧ o.length ≤ 200 := by
  unfold optionError
  split_ifs with h1 h2 h3 <;> simp <;> omega

theorem optionErrors_none_iff (l : List String) :
    l.findSome? optionError = none ↔ ∀ o ∈ l, 2 ≤ o.length ∧ o.length ≤ 200 := by
  rw [List.findSome?_eq_none_iff]
  constructor <;> intro h o ho
  · exact (optionError_eq_none_iff o).mp (h o ho)
  · exact (optionError_eq_none_iff o).mpr (h o ho)

theorem optionsUnique_iff (l : List String) :
    optionsUnique l = true ↔ (l.map jsToLower).Nodup := by
  unfold optionsUnique
  rw [beq_iff_eq]
  rw [show l.length = (l.map jsToLower).length by simp]
  constructor
  · intro h
    have hs := List.dedup_sublist (l.map jsToLower)
    rw [← hs.eq_of_length h]
    exact List.nodup_dedup _
  · intro h
    rw [List.Nodup.dedup h]

theorem validate_isOk_iff (q : String) (opts : List String) :
    (validatePollInput q opts).isOk = true ↔
      (10 ≤ q.length ∧ q.length ≤ 500 ∧ 2 ≤ opts.length ∧ opts.length ≤ 10 ∧
       (∀ o ∈ opts, 2 ≤ o.length ∧ o.length ≤ 200) ∧ (opts.map jsToLower).Nodup) := by
  unfold validatePollInput
  split
  next msg hq =>
    have hnq : ¬ (10 ≤ q.length ∧ q.length ≤ 500) := by
      intro hcon
      rw [(questionError_eq_none_iff q).mpr hcon] at hq
      exact Option.noConfusion hq
    constructor
    · intro h
      exact Bool.noConfusion h
    · rintro ⟨h1, h2, -⟩
      exact absurd ⟨h1, h2⟩ hnq
  next hq =>
    obtain ⟨hqa, hqb⟩ := (questionError_eq_none_iff q).mp hq
    split_ifs with h2 h3 hu
    · constructor
      · intro h
        exact Bool.noConfusion h
      · rintro ⟨-, -, hc, -⟩
        omega
    · constructor
      · intro h
        exact Bool.noConfusion h
      · rintro ⟨-, -, -, hc, -⟩
        omega
    · split
      next msg hf =>
        have hne : ¬ (∀ o ∈ opts, 2 ≤ o.length ∧ o.length ≤ 200) := by
          intro hall
          rw [(optionErrors_none_iff opts).mpr hall] at hf
          exact Option.noConfusion hf
        constructor
        · intro h
          exact Bool.noConfusion h
        · rintro ⟨-, -, -, -, hall, -⟩
          exact absurd hall hne
      next hf =>
        have hall := (optionErrors_none_iff opts).mp hf
        constructor
        · intro _
          exact ⟨hqa, hqb, by omega, by omega, hall, (optionsUnique_iff opts).mp hu⟩
        · intro _
          rfl
    · split
      next msg hf =>
        have hne : ¬ (∀ o ∈ opts, 2 ≤ o.length ∧ o.length ≤ 200) := by
          intro hall
          rw [(optionErrors_none_iff opts).mpr hall] at hf
          exact Option.noConfusion hf
        constructor
        · intro h
          exact Bool.noConfusion h
        · rintro ⟨-, -, -, -, hall, -⟩
          exact absurd hall hne
      next hf =>
        constructor
        · intro h
          exact Bool.noConfusion h
        · rintro ⟨-, -, -, -, -, hnd⟩
          exact absurd ((optionsUnique_iff opts).mpr hnd) hu

/-- C5: on sanitized (hence already trimmed) input, validation accepts
exactly a question of 10 to 500 characters with 2 to 10 options, each 2
to 200 characters after trimming and pairwise distinct ignoring case;
and a rejected input carries the first failing rule message only — on an
input whose question is too short and whose options also collide, the
result is the question message alone. -/
theorem C5_validation_accepts_exactly (q : String) (opts : List String)
    (hq : jsTrim q = q) (hopts : ∀ o ∈ opts, jsTrim o = o) :
    ((validatePollInput q opts).isOk = true ↔
      (10 ≤ q.length ∧ q.length ≤ 500 ∧ 2 ≤ opts.length ∧ opts.length ≤ 10 ∧
       (∀ o ∈ opts, 2 ≤ (jsTrim o).length ∧ (jsTrim o).length ≤ 200) ∧
       (opts.map jsToLower).Nodup)) ∧
    validatePollInput "short" ["Red", "red"]
      = .error "Question must be at least 10 characters" := by
  constructor
  · rw [validate_isOk_iff]
    constructor
    · rintro ⟨h1, h2, h3, h4, h5, h6⟩
      refine ⟨h1, h2, h3, h4, ?_, h6⟩
      intro o ho
      rw [hopts o ho]
      exact h5 o ho
    · rintro ⟨h1, h2, h3, h4, h5, h6⟩
      refine ⟨h1, h2, h3, h4, ?_, h6⟩
      intro o ho
      have hlen := h5 o ho
      rw [hopts o ho] at hlen
      exact hlen
  · rfl

theorem C5_witness :
    (validatePollInput "What is your favorite color?" ["Red", "Blue"]).isOk = true ∧
    ¬ (validatePollInput "What is your favorite color?" ["Red", "red"]).isOk = true :=
  ⟨(C5_validation_accepts_exactly "What is your favorite color?" ["Red", "Blue"]
      (by decide) (by decide)).1.mpr (by decide),
   fun h => absurd
     ((C5_validation_accepts_exactly "What is your favorite color?" ["Red", "red"]
        (by decide) (by decide)).1.mp h).2.2.2.2.2 (by decide)⟩

end Polly
